import Mathlib

/-!
Shallow embedding of the core logic of the `padd-eink` repository
(`src/padd_eink/utils.py`, `src/padd_eink/eink_display.py`,
`src/padd_eink/tui.py`) together with proofs about that embedding.

Python floats are modelled as rationals (`ℚ`), Python's builtin `round`
as round-half-to-even (`pyRound`), and the builtin `int(float)` truncation
toward zero as `pyTrunc`.  Python's dynamically typed JSON-like payloads
are modelled by the inductive type `PyVal`, and operations that can raise
a Python exception return `Except PyErr _`.
-/

/-- Python's builtin `int(x)` on a float: truncation toward zero. -/
def pyTrunc (q : ℚ) : ℤ :=
  if 0 ≤ q then ⌊q⌋ else ⌈q⌉

/-- Python's builtin `round(x)` (one-argument form): nearest integer,
ties going to the even neighbour (banker's rounding). -/
def pyRound (q : ℚ) : ℤ :=
  if q - ⌊q⌋ < 1/2 then ⌊q⌋
  else if q - ⌊q⌋ > 1/2 then ⌊q⌋ + 1
  else if ⌊q⌋ % 2 = 0 then ⌊q⌋ else ⌊q⌋ + 1

/-- `utils.heatmap_generator(value1, value2=None)`.

Source (`utils.py:113-145`): with one argument, `load = round(value1)`;
with two, a zero denominator returns the literal string
`"Error: Division by zero"`, otherwise `load = round(value1/value2*100)`;
then `load < 75 → "lime"`, `load < 90 → "yellow"`, else `"red"`. -/
def heatmap_generator (value1 : ℚ) (value2 : Option ℚ := none) : String :=
  match value2 with
  | none =>
      let load := pyRound value1
      if load < 75 then "lime" else if load < 90 then "yellow" else "red"
  | some v2 =>
      if v2 = 0 then "Error: Division by zero"
      else
        let load := pyRound (value1 / v2 * 100)
        if load < 75 then "lime" else if load < 90 then "yellow" else "red"

/-- The `filled_count` computed by `utils.generate_ascii_bar`
(`utils.py:100`): `int(total_width * (percent / 100))`. -/
def generate_ascii_bar_filled_count (percent : ℚ) (total_width : ℤ) : ℤ :=
  pyTrunc ((total_width : ℚ) * (percent / 100))

/-- Python `"s" * n` for a possibly non-positive `n`. -/
def strRepeat (s : String) (n : ℤ) : String :=
  String.join (List.replicate n.toNat s)

/-- `utils.generate_ascii_bar(percent, total_width=50)` (`utils.py:98-110`):
a Rich-markup bar of `filled_count` filled glyphs and
`total_width - filled_count` empty glyphs. -/
def generate_ascii_bar (percent : ℚ) (total_width : ℤ := 50) : String :=
  let filled_count := generate_ascii_bar_filled_count percent total_width
  let empty_count := total_width - filled_count
  "[bold red]" ++ strRepeat "■" filled_count ++ "[/bold red]"
    ++ "[bold green]" ++ strRepeat "□" empty_count ++ "[/bold green]"

/-- The `fill_width` of the e-ink blocked-percentage bar
(`eink_display.py:174`): `int(bar_width * (percent / 100.0))`. -/
def stats_bar_fill_width (bar_width : ℤ) (percent : ℚ) : ℤ :=
  pyTrunc ((bar_width : ℚ) * (percent / 100))

/-- Value of a list of decimal digit characters. -/
def digitsVal (l : List Char) : ℕ :=
  l.foldl (fun a c => a * 10 + (c.toNat - 48)) 0

/-- Python's builtin `int(s)` on a string: an optional sign followed by a
non-empty run of decimal digits parses to an integer; anything else raises
`ValueError` (modelled as `none`). -/
def pyInt (s : String) : Option ℤ :=
  match s.toList with
  | '-' :: rest =>
      if rest ≠ [] ∧ rest.all Char.isDigit then some (-(digitsVal rest : ℤ)) else none
  | '+' :: rest =>
      if rest ≠ [] ∧ rest.all Char.isDigit then some (digitsVal rest : ℤ) else none
  | l =>
      if l ≠ [] ∧ l.all Char.isDigit then some (digitsVal l : ℤ) else none

/-- Python `s.lstrip("vV")`: drop every leading `'v'` or `'V'`. -/
def lstripVV (s : String) : String :=
  String.mk (s.toList.dropWhile (fun c => c == 'v' || c == 'V'))

/-- Python `s.split(".")` on the character list: `"a.b" ↦ ["a","b"]`,
`"" ↦ [""]`, and separators at either end produce empty components. -/
def splitDot : List Char → List (List Char)
  | [] => [[]]
  | c :: cs =>
      if c = '.' then [] :: splitDot cs
      else
        match splitDot cs with
        | p :: ps => (c :: p) :: ps
        | [] => [[c]]

/-- The parsing phase of `utils.compare_versions` (`utils.py:81-84`):
`[int(part) for part in version.lstrip("vV").split(".")]`, where any
failing component makes the whole parse fail (Python's `ValueError`). -/
def versionParts (version : String) : Option (List ℤ) :=
  (splitDot (lstripVV version).toList).mapM (fun part => pyInt (String.mk part))

/-- The comparison loop of `utils.compare_versions` (`utils.py:90-95`):
walk both (already padded) component lists, returning `1`/`-1` at the
first strictly greater/smaller pair and `0` when the loop ends. -/
def cmpLoop : List ℤ → List ℤ → ℤ
  | a :: as, b :: bs =>
      if a > b then 1 else if a < b then -1 else cmpLoop as bs
  | _, _ => 0

/-- Zero-padding of `utils.compare_versions` (`utils.py:88-89`):
`parts.extend([0] * (max_len - len(parts)))`. -/
def padZeros (l : List ℤ) (n : ℕ) : List ℤ :=
  l ++ List.replicate (n - l.length) 0

/-- `utils.compare_versions(version1, version2)` (`utils.py:78-95`). -/
def compare_versions (version1 version2 : String) : ℤ :=
  match versionParts version1, versionParts version2 with
  | some v1_parts, some v2_parts =>
      let max_len := max v1_parts.length v2_parts.length
      cmpLoop (padZeros v1_parts max_len) (padZeros v2_parts max_len)
  | _, _ => 0

/-! ## Python values

The Pi-hole PADD summary is a nested JSON-like payload.  `PyVal` models the
Python values that appear in it; `PyErr` models the exceptions the render
code can raise while taking it apart. -/

/-- The exceptions relevant to the embedded render paths. -/
inductive PyErr where
  | typeError
  | valueError
  | attributeError
  | indexError
deriving DecidableEq

/-- A Python value as found in the PADD summary payload. -/
inductive PyVal where
  | pnone : PyVal
  | pint : ℤ → PyVal
  | pfloat : ℚ → PyVal
  | pstr : String → PyVal
  | plist : List PyVal → PyVal
  | pdict : List (String × PyVal) → PyVal

/-- Python truthiness: `None`, `0`, `0.0`, `""`, `[]` and `{}` are falsy. -/
def PyVal.truthy : PyVal → Bool
  | .pnone => false
  | .pint n => n != 0
  | .pfloat q => q != 0
  | .pstr s => s != ""
  | .plist l => !l.isEmpty
  | .pdict d => !d.isEmpty

/-- Python `x.get(key, default)`: on a dict, the stored value when the key is
present (even if that value is `None`), the default otherwise; on anything
else, `AttributeError` (no `get` method). -/
def PyVal.get : PyVal → String → PyVal → Except PyErr PyVal
  | .pdict d, key, dflt => .ok ((d.lookup key).getD dflt)
  | _, _, _ => .error .attributeError

/-- Python `x[i]` for a non-negative index: `IndexError` past the end of a
list, `TypeError` on a non-list. -/
def PyVal.index : PyVal → ℕ → Except PyErr PyVal
  | .plist l, i =>
      match l.get? i with
      | some v => .ok v
      | none => .error .indexError
  | _, _ => .error .typeError

/-- Using a Python value as a number (arithmetic, `round`, an order
comparison against a number, a `:.1f` format): ints and floats succeed,
everything else raises `TypeError`. -/
def PyVal.toRat : PyVal → Except PyErr ℚ
  | .pint n => .ok (n : ℚ)
  | .pfloat q => .ok q
  | _ => .error .typeError

/-- Python `int(x)`: the identity on ints, truncation on floats, digit
parsing on strings, an exception (`none`) on anything else.  The callers
embedded here catch both `ValueError` and `TypeError`. -/
def pyIntCast : PyVal → Option ℤ
  | .pint n => some n
  | .pfloat q => some (pyTrunc q)
  | .pstr s => pyInt s
  | _ => none

/-- Python `str(x)` as interpolated by the render f-strings.  The repr of
nested containers is abbreviated: no embedded claim depends on it. -/
def pyStr : PyVal → String
  | .pnone => "None"
  | .pint n => toString n
  | .pfloat q =>
      if q.den = 1 then toString q.num ++ ".0"
      else toString q.num ++ "/" ++ toString q.den
  | .pstr s => s
  | .plist _ => "[...]"
  | .pdict _ => "\x7b...\x7d"

/-- `f"{q:.<prec>f}"` on an exact rational: round half to even at `prec`
decimal places and print with the fractional part zero-padded. -/
def fmtFixed (prec : ℕ) (q : ℚ) : String :=
  let scaled := pyRound (q * (10 : ℚ) ^ prec)
  let sign := if scaled < 0 then "-" else ""
  let a := scaled.natAbs
  let ip := a / 10 ^ prec
  let fp := a % 10 ^ prec
  let fpStr := toString fp
  let pad := String.mk (List.replicate (prec - fpStr.length) '0')
  sign ++ toString ip ++ "." ++ pad ++ fpStr

/-- `f"{x:.<prec>f}"` on a Python value: `TypeError` on a non-number. -/
def fmtFixedPy (prec : ℕ) (v : PyVal) : Except PyErr String := do
  let q ← v.toRat
  pure (fmtFixed prec q)

/-- `utils.generate_ascii_bar` called on a payload value (`tui.py:77,82`):
Python raises `TypeError` at `percent / 100` when the value is not a
number. -/
def generate_ascii_bar_py (percent : PyVal) (total_width : ℤ) :
    Except PyErr String := do
  let q ← percent.toRat
  pure (generate_ascii_bar q total_width)

/-- `utils.heatmap_generator` (one-argument form) called on a payload value:
Python raises `TypeError` at `round(value1)` when the value is not a
number. -/
def heatmap_generator_py (value1 : PyVal) : Except PyErr String := do
  let q ← value1.toRat
  pure (heatmap_generator q)

/-- `utils.format_uptime(seconds)` (`utils.py:64-75`): `int(seconds)`, then
days/hours/minutes by Python floor division; `ValueError`/`TypeError` from
the conversion are caught and give `"N/A"`. -/
def format_uptime (seconds : PyVal) : String :=
  match pyIntCast seconds with
  | some secs =>
      let days := Int.fdiv secs (24 * 3600)
      let secs1 := Int.fmod secs (24 * 3600)
      let hours := Int.fdiv secs1 3600
      let secs2 := Int.fmod secs1 3600
      let minutes := Int.fdiv secs2 60
      toString days ++ "d " ++ toString hours ++ "h " ++ toString minutes ++ "m"
  | none => "N/A"

/-- `tui.SystemStats.update_content(padd_data)` (`tui.py:67-112`): the System
Stats widget's render.  `.ok text` is the string handed to `self.update`;
`.error e` is a Python exception escaping the method.  Statements are
embedded in source order; in particular the three CPU load values re-run the
chain `system.get("cpu", {}).get("load", {}).get("raw", [0.0])` and index it
at `0`, `1` and `2` (`tui.py:97-101`), against a default list of length 1. -/
def SystemStats.update_content (padd_data : PyVal) : Except PyErr String := do
  if padd_data.truthy = false then
    pure ""
  else do
    let err ← padd_data.get "error" .pnone
    if err.truthy then
      pure ""
    else do
      let system ← padd_data.get "system" (.pdict [])
      let cpu_per ← (← system.get "cpu" (.pdict [])).get "%cpu" (.plist [.pfloat 0])
      let cpu_bar ← generate_ascii_bar_py cpu_per 40
      let cpu_color ← heatmap_generator_py cpu_per
      let mem_load ←
        (← (← system.get "memory" (.pdict [])).get "ram" (.pdict [])).get "%used" (.pfloat 0)
      let mem_bar ← generate_ascii_bar_py mem_load 40
      let mem_color ← heatmap_generator_py mem_load
      let cpu_temp ← (← padd_data.get "sensors" (.pdict [])).get "cpu_temp" (.pfloat 0)
      let tempq ← cpu_temp.toRat
      let cpu_emoji := if tempq > 80 then "👎 🔥" else if tempq ≥ 60 then "👍 🌡" else "👍 👌"
      let color ← heatmap_generator_py cpu_temp
      let cpu_load_1 ←
        (← (← (← system.get "cpu" (.pdict [])).get "load" (.pdict [])).get "raw"
          (.plist [.pfloat 0])).index 0
      let cpu_load_1_color ← heatmap_generator_py cpu_load_1
      let cpu_load_5 ←
        (← (← (← system.get "cpu" (.pdict [])).get "load" (.pdict [])).get "raw"
          (.plist [.pfloat 0])).index 1
      let cpu_load_5_color ← heatmap_generator_py cpu_load_5
      let cpu_load_15 ←
        (← (← (← system.get "cpu" (.pdict [])).get "load" (.pdict [])).get "raw"
          (.plist [.pfloat 0])).index 2
      let cpu_load_15_color ← heatmap_generator_py cpu_load_15
      let node_name ← padd_data.get "node_name" (.pstr "N/A")
      let addr ←
        (← (← padd_data.get "iface" (.pdict [])).get "v4" (.pdict [])).get "addr" (.pstr "N/A")
      let cpu_per_str ← fmtFixedPy 1 cpu_per
      let l1 ← fmtFixedPy 2 cpu_load_1
      let l5 ← fmtFixedPy 2 cpu_load_5
      let l15 ← fmtFixedPy 2 cpu_load_15
      let mem_str ← fmtFixedPy 1 mem_load
      let temp_str ← fmtFixedPy 1 cpu_temp
      let uptime ← system.get "uptime" (.pint 0)
      let lines : List String := [
        "[bold]Host:[/bold]       " ++ pyStr node_name ++ " (" ++ pyStr addr ++ ")",
        "[bold]CPU Used:[/bold]   " ++ cpu_bar ++ " [" ++ cpu_color ++ "]"
          ++ cpu_per_str ++ "%[/" ++ cpu_color ++ "]",
        "[bold]CPU Load:[/bold]   [" ++ cpu_load_1_color ++ "]" ++ l1
          ++ "[/" ++ cpu_load_1_color ++ "], [" ++ cpu_load_5_color ++ "]" ++ l5
          ++ "[/" ++ cpu_load_5_color ++ "], [" ++ cpu_load_15_color ++ "]" ++ l15
          ++ "[/" ++ cpu_load_15_color ++ "]",
        "[bold]Memory:[/bold]     " ++ mem_bar ++ " [" ++ mem_color ++ "]"
          ++ mem_str ++ "%[/" ++ mem_color ++ "]",
        "[bold]Uptime:[/bold]     " ++ format_uptime uptime
          ++ "\t[bold]CPU Temp:[/bold]   [" ++ color ++ "]" ++ temp_str
          ++ "°C[/" ++ color ++ "]   " ++ cpu_emoji]
      pure (String.intercalate "\n" lines)

/-- A payload with a CPU load list of only two entries, as named by the
spec's own error-state requirement. -/
def shortLoadSnapshot : PyVal :=
  .pdict [("node_name", .pstr "pi"),
          ("system", .pdict [("cpu", .pdict [("%cpu", .pfloat 50),
                                             ("load", .pdict [("raw",
                                               .plist [.pfloat (1/10), .pfloat (2/10)])])])])]

/-- A non-empty payload with no `system` entry at all: the `%cpu` default is
the list `[0.0]` (`tui.py:76`), which `generate_ascii_bar` then divides. -/
def noSystemSnapshot : PyVal := .pdict [("node_name", .pstr "pi")]


/-! ## The e-ink control state

`eink_display.py` keeps its state in module-level globals
(`eink_display.py:37-43`): the cached payload, the time of the last
successful fetch, the active screen index, the dirty flag, the QR-code
overlay flag and the connection-failed flag.  `EinkState` bundles them;
the button handlers and the control-loop steps become functions on it.
Wall-clock times (`time.time()`) are passed in explicitly as rationals. -/

structure EinkState where
  padd_data : PyVal
  last_data_refresh_time : ℚ
  current_screen_index : ℤ
  force_redraw : Bool
  qrcode_mode_active : Bool
  connection_failed_at_boot : Bool

/-- GPIO pin of key 2 (`eink_display.py:20`). -/
def KEY2_PIN : ℤ := 6
/-- GPIO pin of key 3 (`eink_display.py:21`). -/
def KEY3_PIN : ℤ := 13
/-- GPIO pin of key 4 (`eink_display.py:22`). -/
def KEY4_PIN : ℤ := 19

/-- `len(screens)` in `run_eink_display` (`eink_display.py:481-482`): the
three informational screens. -/
def num_screens : ℤ := 3

/-- `eink_display.handle_short_press(button_pin)` (`eink_display.py:359-370`):
ignored outright while the QR overlay is active; otherwise selects the
screen bound to the pin and sets the dirty flag. -/
def handle_short_press (button_pin : ℤ) (s : EinkState) : EinkState :=
  if s.qrcode_mode_active then s
  else
    let s :=
      if button_pin = KEY2_PIN then { s with current_screen_index := 0 }
      else if button_pin = KEY3_PIN then { s with current_screen_index := 1 }
      else if button_pin = KEY4_PIN then { s with current_screen_index := 2 }
      else s
    { s with force_redraw := true }

/-- `eink_display.handle_qrcode_toggle()` (`eink_display.py:386-390`): flips
the QR overlay flag and sets the dirty flag; the screen index is untouched. -/
def handle_qrcode_toggle (s : EinkState) : EinkState :=
  { s with qrcode_mode_active := !s.qrcode_mode_active, force_redraw := true }

/-- The connection-failure transition (`eink_display.py:455-458`): after the
initial fetch attempts fail, `connection_failed_at_boot` is set and a redraw
is forced.  No other flag is touched. -/
def enter_connection_failed (s : EinkState) : EinkState :=
  { s with connection_failed_at_boot := true, force_redraw := true }

/-- The screen-rotation step at the top of the control loop
(`eink_display.py:485-493`): when neither overlay flag is set and
`now - last_screen_rotate_time > rotate_interval` (strictly), advance the
screen index modulo `num_screens`, set the dirty flag and reset the
rotation timer to `now`.  Returns the new state and rotation timer. -/
def tick_rotate (now last_screen_rotate_time rotate_interval : ℚ)
    (s : EinkState) : EinkState × ℚ :=
  if s.qrcode_mode_active = false ∧ s.connection_failed_at_boot = false
      ∧ now - last_screen_rotate_time > rotate_interval then
    ({ s with current_screen_index := (s.current_screen_index + 1) % num_screens,
              force_redraw := true }, now)
  else (s, last_screen_rotate_time)

/-- `eink_display.refresh_data(pihole)` (`eink_display.py:394-406`) with the
fetch outcome injected: when the cache is stale
(`current_time - last_data_refresh_time > 120`) or empty, a successful
fetch stores the payload and the timestamp; a raising fetch stores the
empty dict `{}` and leaves the timestamp untouched. -/
def refresh_data (fetch : Except String PyVal) (current_time : ℚ)
    (s : EinkState) : EinkState :=
  if current_time - s.last_data_refresh_time > 120 ∨ s.padd_data.truthy = false then
    match fetch with
    | .ok data => { s with padd_data := data, last_data_refresh_time := current_time }
    | .error _ => { s with padd_data := .pdict [] }
  else s

/-- What the redraw branch of the control loop paints
(`eink_display.py:495-514`): the connection-failed screen wins over the QR
overlay, which wins over the normal screen rotation. -/
inductive RenderedScreen where
  | connectionFailed : RenderedScreen
  | qrcode : RenderedScreen
  | stats : ℤ → RenderedScreen
deriving DecidableEq

/-- The dispatch order of the redraw branch (`eink_display.py:499-514`). -/
def render_dispatch (s : EinkState) : RenderedScreen :=
  if s.connection_failed_at_boot then .connectionFailed
  else if s.qrcode_mode_active then .qrcode
  else .stats s.current_screen_index


/-! ## Helper lemmas -/

theorem pyTrunc_eq_floor (q : ℚ) (h : 0 ≤ q) : pyTrunc q = ⌊q⌋ := by
  simp [pyTrunc, h]

theorem heat_bucket_cases (l : ℤ) :
    (if l < 75 then "lime" else if l < 90 then "yellow" else "red") = "lime"
      ∨ (if l < 75 then "lime" else if l < 90 then "yellow" else "red") = "yellow"
      ∨ (if l < 75 then "lime" else if l < 90 then "yellow" else "red") = "red" := by
  split
  · exact Or.inl rfl
  · split
    · exact Or.inr (Or.inl rfl)
    · exact Or.inr (Or.inr rfl)

/-! ## Claim C1 — the one-argument heat classification -/

/-- Claim C1, counterexample.  The claim asserts boundary-exact
classification of the raw value (`heat(74.9) = nominal`,
`heat(89.9) = elevated`, with `"lime"` the nominal bucket, `"yellow"`
elevated and `"red"` critical).  The source rounds first
(`load = round(value1)`, `utils.py:132`), so `heat(74.9)` is already the
elevated bucket and `heat(89.9)` the critical one. -/
theorem heat_boundary_counterexample :
    heatmap_generator (749/10) = "yellow" ∧ heatmap_generator (899/10) = "red" := by
  constructor <;> with_unfolding_all decide

/-- Claim C1, amended: `heatmap_generator` classifies the Python-rounded
value: nominal (`"lime"`) iff `round(v) < 75`, elevated (`"yellow"`) iff
`75 ≤ round(v) < 90`, critical (`"red"`) iff `round(v) ≥ 90`; hence
`heat(74.9)` is elevated, `heat(75.0)` elevated, `heat(89.9)` critical and
`heat(90.0)` critical. -/
theorem heat_classifies_rounded_value :
    (∀ v : ℚ,
      (heatmap_generator v = "lime" ↔ pyRound v < 75) ∧
      (heatmap_generator v = "yellow" ↔ 75 ≤ pyRound v ∧ pyRound v < 90) ∧
      (heatmap_generator v = "red" ↔ 90 ≤ pyRound v)) ∧
    heatmap_generator (749/10) = "yellow" ∧ heatmap_generator 75 = "yellow" ∧
    heatmap_generator (899/10) = "red" ∧ heatmap_generator 90 = "red" := by
  refine ⟨?_, by with_unfolding_all decide, by with_unfolding_all decide,
    by with_unfolding_all decide, by with_unfolding_all decide⟩
  intro v
  simp only [heatmap_generator]
  by_cases h1 : pyRound v < 75
  · rw [if_pos h1]
    exact ⟨⟨fun _ => h1, fun _ => rfl⟩,
      ⟨fun h => absurd h (by decide), fun h => absurd h1 (by omega)⟩,
      ⟨fun h => absurd h (by decide), fun h => absurd h1 (by omega)⟩⟩
  · rw [if_neg h1]
    by_cases h2 : pyRound v < 90
    · rw [if_pos h2]
      exact ⟨⟨fun h => absurd h (by decide), fun h => absurd h h1⟩,
        ⟨fun _ => ⟨by omega, h2⟩, fun _ => rfl⟩,
        ⟨fun h => absurd h (by decide), fun h => absurd h2 (by omega)⟩⟩
    · rw [if_neg h2]
      exact ⟨⟨fun h => absurd h (by decide), fun h => absurd h h1⟩,
        ⟨fun h => absurd h (by decide), fun h => absurd h.2 h2⟩,
        ⟨fun _ => by omega, fun _ => rfl⟩⟩

/-! ## Claim C3 — bar fill width -/

/-- Claim C3, counterexample.  The claim asserts fill width
`round(width * percent/100)`; the source truncates
(`int(total_width * (percent / 100))`, `utils.py:100`, and
`int(bar_width * (percent / 100.0))`, `eink_display.py:174`).  At
`percent = 75`, `width = 50` the product is `37.5`: the code fills 37
glyphs while `round(37.5) = 38`. -/
theorem bar_fill_truncates_counterexample :
    generate_ascii_bar_filled_count 75 50 = 37 ∧
    (generate_ascii_bar 75 50).toList.count '■' = 37 ∧
    stats_bar_fill_width 50 75 = 37 ∧
    pyRound ((50 : ℚ) * (75 / 100)) = 38 := by
  refine ⟨?_, ?_, ?_, ?_⟩ <;> with_unfolding_all decide

/-- Claim C3, amended: for `0 ≤ percent ≤ 100` and a non-negative width,
the filled width of both bars is the floor (truncation) of
`width * percent/100`, and lies between `0` and `width`. -/
theorem bar_fill_is_floor (w : ℤ) (p : ℚ) (hw : 0 ≤ w) (hp : 0 ≤ p)
    (hp100 : p ≤ 100) :
    generate_ascii_bar_filled_count p w = ⌊(w : ℚ) * (p / 100)⌋ ∧
    stats_bar_fill_width w p = ⌊(w : ℚ) * (p / 100)⌋ ∧
    0 ≤ generate_ascii_bar_filled_count p w ∧
    generate_ascii_bar_filled_count p w ≤ w := by
  have hwq : (0 : ℚ) ≤ (w : ℚ) := by exact_mod_cast hw
  have hq : (0 : ℚ) ≤ (w : ℚ) * (p / 100) :=
    mul_nonneg hwq (div_nonneg hp (by norm_num))
  have e1 : generate_ascii_bar_filled_count p w = ⌊(w : ℚ) * (p / 100)⌋ := by
    rw [generate_ascii_bar_filled_count, pyTrunc_eq_floor _ hq]
  have e2 : stats_bar_fill_width w p = ⌊(w : ℚ) * (p / 100)⌋ := by
    rw [stats_bar_fill_width, pyTrunc_eq_floor _ hq]
  refine ⟨e1, e2, ?_, ?_⟩
  · rw [e1]; exact Int.floor_nonneg.mpr hq
  · rw [e1]
    have hle : (w : ℚ) * (p / 100) ≤ (w : ℚ) := by
      have h1 : p / 100 ≤ 1 := by rw [div_le_one (by norm_num)]; exact hp100
      calc (w : ℚ) * (p / 100) ≤ (w : ℚ) * 1 := mul_le_mul_of_nonneg_left h1 hwq
        _ = (w : ℚ) := mul_one _
    calc ⌊(w : ℚ) * (p / 100)⌋ ≤ ⌊((w : ℤ) : ℚ)⌋ := Int.floor_le_floor hle
      _ = w := Int.floor_intCast w

/-- Claim C3, witness for `bar_fill_is_floor` at width 50, percent 75. -/
theorem bar_fill_is_floor_witness :
    generate_ascii_bar_filled_count 75 50 = ⌊(50 : ℚ) * (75 / 100)⌋ :=
  (bar_fill_is_floor 50 75 (by norm_num) (by norm_num) (by norm_num)).1

/-! ## Claim C10 — the two-argument heat form guards its division -/

/-- Claim C10: the two-argument form of `heatmap_generator` returns the
string `"Error: Division by zero"` exactly when the denominator is zero,
and otherwise one of the three colour buckets; it is total on numbers. -/
theorem heatmap_division_guard :
    ∀ v1 v2 : ℚ,
      (heatmap_generator v1 (some v2) = "Error: Division by zero" ↔ v2 = 0) ∧
      (v2 ≠ 0 →
        heatmap_generator v1 (some v2) = "lime"
          ∨ heatmap_generator v1 (some v2) = "yellow"
          ∨ heatmap_generator v1 (some v2) = "red") := by
  intro v1 v2
  by_cases h : v2 = 0
  · refine ⟨⟨fun _ => h, fun _ => ?_⟩, fun hn => absurd h hn⟩
    simp [heatmap_generator, h]
  · have hb := heat_bucket_cases (pyRound (v1 / v2 * 100))
    have he : heatmap_generator v1 (some v2)
        = (if pyRound (v1 / v2 * 100) < 75 then "lime"
           else if pyRound (v1 / v2 * 100) < 90 then "yellow" else "red") := by
      simp [heatmap_generator, h]
    refine ⟨⟨fun hs => ?_, fun h0 => absurd h0 h⟩, fun _ => by rw [he]; exact hb⟩
    rw [he] at hs
    rcases hb with hl | hl | hl <;> rw [hl] at hs <;> exact absurd hs (by decide)

/-! ## Claims C4 and C9 — the version comparator -/

/-- A version component parsed as the claim words it: a non-negative
integer, i.e. a non-empty run of decimal digits with no sign. -/
def parseNonnegComponent (l : List Char) : Option ℤ :=
  if l ≠ [] ∧ l.all Char.isDigit then some (digitsVal l : ℤ) else none

/-- The component lists under the claim's parsing (non-negative only). -/
def claimed_versionParts (version : String) : Option (List ℤ) :=
  (splitDot (lstripVV version).toList).mapM parseNonnegComponent

/-- The comparator exactly as claim C4 states it: strip leading `v`/`V`,
split on `.`, parse each component as a NON-NEGATIVE integer, pad the
shorter list with zeros, and read the result off the first unequal pair;
any unparseable component on either side gives `0`. -/
def claimed_compare_versions (a b : String) : ℤ :=
  match claimed_versionParts a, claimed_versionParts b with
  | some x, some y =>
      let n := max x.length y.length
      match ((padZeros x n).zip (padZeros y n)).find? (fun p => p.1 != p.2) with
      | some p => if p.1 > p.2 then 1 else -1
      | none => 0
  | _, _ => 0

/-- The comparator as the amended claim words it: identical to
`claimed_compare_versions` except that a component is parsed by Python's
`int`, which also accepts a sign. -/
def claimed_compare_versions_signed (a b : String) : ℤ :=
  match versionParts a, versionParts b with
  | some x, some y =>
      let n := max x.length y.length
      match ((padZeros x n).zip (padZeros y n)).find? (fun p => p.1 != p.2) with
      | some p => if p.1 > p.2 then 1 else -1
      | none => 0
  | _, _ => 0

theorem cmpLoop_eq_find :
    ∀ xs ys : List ℤ,
      cmpLoop xs ys =
        match (xs.zip ys).find? (fun p => p.1 != p.2) with
        | some p => if p.1 > p.2 then 1 else -1
        | none => 0 := by
  intro xs
  induction xs with
  | nil => intro ys; cases ys <;> rfl
  | cons a as ih =>
    intro ys
    cases ys with
    | nil => rfl
    | cons b bs =>
      show (if a > b then 1 else if a < b then -1 else cmpLoop as bs) = _
      rw [List.zip_cons_cons, List.find?_cons]
      by_cases hab : a = b
      · have : ((a, b).1 != (a, b).2) = false := by simp [hab]
        rw [this, if_neg (by omega), if_neg (by omega)]
        exact ih bs
      · have : ((a, b).1 != (a, b).2) = true := by simp [hab]
        rw [this]
        rcases lt_or_gt_of_ne hab with h | h
        · rw [if_neg (by omega), if_pos h]
          show (-1 : ℤ) = if a > b then 1 else -1
          rw [if_neg (by omega)]
        · rw [if_pos h]
          show (1 : ℤ) = if a > b then 1 else -1
          rw [if_pos h]

theorem cmpLoop_neg : ∀ xs ys : List ℤ, cmpLoop xs ys = -cmpLoop ys xs := by
  intro xs
  induction xs with
  | nil => intro ys; cases ys <;> rfl
  | cons a as ih =>
    intro ys
    cases ys with
    | nil => rfl
    | cons b bs =>
      show (if a > b then 1 else if a < b then -1 else cmpLoop as bs)
        = -(if b > a then 1 else if b < a then -1 else cmpLoop bs as)
      rcases lt_trichotomy a b with h | h | h
      · have h1 : ¬ a > b := by omega
        have h2 : b > a := h
        rw [if_neg h1, if_pos h, if_pos h2]
        try norm_num
      · subst h
        simpa using ih bs
      · have h1 : ¬ b > a := by omega
        have h2 : b < a := h
        rw [if_pos h, if_neg h1, if_pos h2]
        try norm_num

/-- Claim C4, counterexample.  Python's `int` accepts a sign, so the
component `"-1"` parses as `-1` and `compare_versions("1.0", "1.-1")`
returns `1`; the claim ("parses each component as a non-negative integer
... non-numeric or unparseable input on either side yields 0") predicts
`0` there, as its own comparator (`claimed_compare_versions`) shows. -/
theorem compare_versions_negative_component_counterexample :
    compare_versions "1.0" "1.-1" = 1 ∧ claimed_compare_versions "1.0" "1.-1" = 0 := by
  constructor <;> decide

/-- Claim C4, amended: `compare_versions` strips leading `v`/`V`, splits on
`.`, parses each component with Python `int` (which also accepts a sign,
e.g. `"-1"`), pads the shorter list with zeros and compares component-wise
left to right, `0` when either side fails to parse; the claim's examples
`("1.2.0","1.2") = 0`, `("2.0.0","1.9.9") = 1`, `("vX","1.0") = 0` hold. -/
theorem compare_versions_componentwise :
    (∀ a b : String, compare_versions a b = claimed_compare_versions_signed a b) ∧
    compare_versions "1.2.0" "1.2" = 0 ∧
    compare_versions "2.0.0" "1.9.9" = 1 ∧
    compare_versions "vX" "1.0" = 0 := by
  refine ⟨?_, by decide, by decide, by decide⟩
  intro a b
  unfold compare_versions claimed_compare_versions_signed
  cases versionParts a <;> cases versionParts b <;> simp only []
  exact cmpLoop_eq_find _ _

/-- Claim C9: for all strings, well-formed or not,
`compare_versions(a, b) = -compare_versions(b, a)`. -/
theorem compare_versions_antisymm :
    ∀ a b : String, compare_versions a b = -compare_versions b a := by
  intro a b
  unfold compare_versions
  cases versionParts a <;> cases versionParts b <;> simp only []
  case none.none => rfl
  case none.some => rfl
  case some.none => rfl
  case some.some x y =>
    rw [Nat.max_comm y.length x.length]
    exact cmpLoop_neg _ _

/-! ## Claims C2, C5, C6, C7, C8 — control state and render safety -/

/-- The initial e-ink control state: `Showing(0)`, empty cache, no overlay
(`eink_display.py:38-43`). -/
def showing0 : EinkState :=
  { padd_data := .pdict [], last_data_refresh_time := 0, current_screen_index := 0,
    force_redraw := false, qrcode_mode_active := false, connection_failed_at_boot := false }

/-- A state with the QR overlay active over screen index 1. -/
def qrOverlayState : EinkState :=
  { showing0 with current_screen_index := 1, qrcode_mode_active := true }

/-- A state whose cache holds a non-empty payload fetched at time 10. -/
def cacheState : EinkState :=
  { showing0 with padd_data := .pdict [("queries", .pint 1)],
                  last_data_refresh_time := 10 }

/-- Claim C2, counterexample.  The rotation condition is strict
(`time.time() - last_screen_rotate_time > rotate_interval`,
`eink_display.py:489`), so a tick whose elapsed time exactly equals the
interval (`tick_rotate(20, 20)`, i.e. `now = 20`, timer `0`, interval `20`)
does not advance `Showing(0)` to `Showing(1)`: the state and the rotation
timer are unchanged. -/
theorem tick_rotate_exact_interval_counterexample :
    tick_rotate 20 0 20 showing0 = (showing0, 0) := by
  unfold tick_rotate
  rw [if_neg]
  rintro ⟨-, -, h⟩
  norm_num at h

/-- Claim C2, amended: a rotation tick advances `Showing(i)` to
`Showing((i+1) mod 3)`, sets the dirty flag and resets the rotation timer
exactly when no overlay flag is set and `elapsed > rotate_interval`
STRICTLY; under either overlay, or at `elapsed ≤ rotate_interval`
(including the claim's `tick_rotate(20, 20)`), it has no effect; three
consecutive ticks 21 seconds apart at interval 20 cycle 0 → 1 → 2 → 0. -/
theorem tick_rotate_strict_interval :
    (∀ (s : EinkState) (now last itv : ℚ),
      s.qrcode_mode_active = false → s.connection_failed_at_boot = false →
      now - last > itv →
      tick_rotate now last itv s =
        ({ s with current_screen_index := (s.current_screen_index + 1) % num_screens,
                  force_redraw := true }, now)) ∧
    (∀ (s : EinkState) (now last itv : ℚ),
      s.qrcode_mode_active = true ∨ s.connection_failed_at_boot = true →
      tick_rotate now last itv s = (s, last)) ∧
    (∀ (s : EinkState) (now last itv : ℚ),
      now - last ≤ itv → tick_rotate now last itv s = (s, last)) ∧
    (tick_rotate 21 0 20 showing0).1.current_screen_index = 1 ∧
    (tick_rotate 21 0 20 showing0).2 = 21 ∧
    (tick_rotate 42 21 20 (tick_rotate 21 0 20 showing0).1).1.current_screen_index = 2 ∧
    (tick_rotate 63 42 20
      (tick_rotate 42 21 20 (tick_rotate 21 0 20 showing0).1).1).1.current_screen_index
      = 0 := by
  refine ⟨?_, ?_, ?_, ?_, ?_, ?_, ?_⟩
  · intro s now last itv h1 h2 h3
    unfold tick_rotate
    rw [if_pos ⟨h1, h2, h3⟩]
  · intro s now last itv h
    unfold tick_rotate
    rw [if_neg]
    rintro ⟨h1, h2, -⟩
    rcases h with h | h
    · rw [h1] at h; exact Bool.false_ne_true h
    · rw [h2] at h; exact Bool.false_ne_true h
  · intro s now last itv h
    unfold tick_rotate
    rw [if_neg]
    rintro ⟨-, -, h3⟩
    exact absurd h3 (not_lt.mpr h)
  · with_unfolding_all decide
  · with_unfolding_all decide
  · with_unfolding_all decide
  · with_unfolding_all decide

/-- Claim C2, witness for the hypothesis-bearing parts of
`tick_rotate_strict_interval`, at `Showing(0)`, `now = 21`, timer `0`,
interval `20`. -/
theorem tick_rotate_strict_interval_witness :
    tick_rotate 21 0 20 showing0 =
      ({ showing0 with current_screen_index := 1, force_redraw := true }, 21) := by
  have h := tick_rotate_strict_interval.1 showing0 21 0 20 rfl rfl (by norm_num)
  rw [h]
  with_unfolding_all rfl

/-- Claim C5: the spec requires every screen render to null-check every
nested field path and never raise.  `SystemStats.update_content` violates
this: with `system.cpu.load.raw` of length 2 (the claim's own example) the
third read `[...].get("raw", [0.0])[2]` (`tui.py:101`) raises `IndexError`
— the default list `[0.0]` itself has length 1, so even a payload with no
`system` entry raises (`TypeError` at `generate_ascii_bar([0.0], 40)`,
`tui.py:77`). -/
theorem systemstats_render_raises :
    SystemStats.update_content shortLoadSnapshot = .error .indexError ∧
    SystemStats.update_content noSystemSnapshot = .error .typeError := by
  constructor <;> with_unfolding_all rfl

/-- Claim C6, counterexample.  On a failed fetch the e-ink cache stores the
EMPTY dict (`padd_data = {}`, `eink_display.py:406`), not an error-variant
snapshot `{error: message}` as the claim states. -/
theorem refresh_data_error_snapshot_counterexample :
    (refresh_data (.error "boom") 200 cacheState).padd_data = .pdict [] ∧
    PyVal.pdict [] ≠ PyVal.pdict [("error", .pstr "boom")] := by
  constructor
  · with_unfolding_all rfl
  · intro h
    simp at h

/-- Claim C6, amended: when the fetch raises during an eligible refresh,
the cache stores the empty snapshot `{}` (the TUI path instead hands
`{error: message}` straight to its stats widget), and
`last_data_refresh_time` is left unchanged; because `{}` is falsy, the very
next tick refetches no matter how recent the last success was. -/
theorem refresh_data_failure_keeps_timestamp :
    ∀ (s : EinkState) (msg : String) (t : ℚ),
      (t - s.last_data_refresh_time > 120 ∨ s.padd_data.truthy = false) →
      refresh_data (.error msg) t s = { s with padd_data := .pdict [] } ∧
      (refresh_data (.error msg) t s).last_data_refresh_time
        = s.last_data_refresh_time ∧
      (∀ (t2 : ℚ) (d : PyVal),
        refresh_data (.ok d) t2 (refresh_data (.error msg) t s)
          = { s with padd_data := d, last_data_refresh_time := t2 }) := by
  intro s msg t h
  have e : refresh_data (.error msg) t s = { s with padd_data := .pdict [] } := by
    unfold refresh_data
    rw [if_pos h]
  refine ⟨e, by rw [e], ?_⟩
  intro t2 d
  rw [e]
  unfold refresh_data
  have hfalse : ({ s with padd_data := PyVal.pdict [] } : EinkState).padd_data.truthy
      = false := rfl
  rw [if_pos (Or.inr hfalse)]

/-- Claim C6, witness for `refresh_data_failure_keeps_timestamp`: a cache
fetched successfully at time 10 and failing at time 200. -/
theorem refresh_data_failure_keeps_timestamp_witness :
    (refresh_data (.error "boom") 200 cacheState).last_data_refresh_time = 10 ∧
    refresh_data (.ok (.pdict [("queries", .pint 2)])) 260
        (refresh_data (.error "boom") 200 cacheState)
      = { cacheState with padd_data := .pdict [("queries", .pint 2)],
                          last_data_refresh_time := 260 } := by
  have h := refresh_data_failure_keeps_timestamp cacheState "boom" 200
    (Or.inl (by norm_num [cacheState, showing0]))
  exact ⟨h.2.1, h.2.2 260 (.pdict [("queries", .pint 2)])⟩

/-- Claim C7, counterexample.  Entering the connection-failed state does
NOT clear the QR overlay flag: from a state with the QR overlay active,
`qrcode_mode_active` is still `true` afterwards (the flag is observable:
while it is set, `handle_refresh_press` and `handle_short_press` return
immediately, `eink_display.py:361,375`). -/
theorem enter_connection_failed_keeps_qr_flag_counterexample :
    (enter_connection_failed qrOverlayState).qrcode_mode_active = true := rfl

/-- Claim C7, amended: connection failure takes priority over the QR
overlay in the render dispatch — after `enter_connection_failed` the
connection-failed screen is what gets rendered, whatever overlay was
active — but the QR flag is overridden, not cleared: it, and the screen
index, are left exactly as they were. -/
theorem connection_failed_render_priority :
    ∀ s : EinkState,
      render_dispatch (enter_connection_failed s) = .connectionFailed ∧
      (enter_connection_failed s).qrcode_mode_active = s.qrcode_mode_active ∧
      (enter_connection_failed s).current_screen_index = s.current_screen_index := by
  intro s
  refine ⟨?_, rfl, rfl⟩
  simp [render_dispatch, enter_connection_failed]

/-- Claim C8: from `Showing(i)` (QR overlay off), toggling the QR overlay
twice returns to exactly the prior state (up to the dirty flag), with the
screen index preserved throughout; while the overlay is active, a
screen-select press is ignored entirely. -/
theorem toggle_qr_round_trip :
    ∀ (s : EinkState) (p : ℤ), s.qrcode_mode_active = false →
      (handle_qrcode_toggle s).qrcode_mode_active = true ∧
      (handle_qrcode_toggle s).current_screen_index = s.current_screen_index ∧
      handle_short_press p (handle_qrcode_toggle s) = handle_qrcode_toggle s ∧
      handle_qrcode_toggle (handle_qrcode_toggle s) = { s with force_redraw := true } := by
  intro s p h
  refine ⟨by simp [handle_qrcode_toggle, h], rfl, ?_, ?_⟩
  · unfold handle_short_press
    rw [if_pos (by simp [handle_qrcode_toggle, h])]
  · unfold handle_qrcode_toggle
    simp [h]

/-- Claim C8, witness for `toggle_qr_round_trip` at `Showing(2)` and the
key-2 pin. -/
theorem toggle_qr_round_trip_witness :
    handle_qrcode_toggle (handle_qrcode_toggle
        { showing0 with current_screen_index := 2 })
      = { showing0 with current_screen_index := 2, force_redraw := true } := by
  have h := toggle_qr_round_trip { showing0 with current_screen_index := 2 }
    KEY2_PIN rfl
  exact h.2.2.2
